import Mathlib

/-
  Verification of the paragraph-boundary balancer and visitor protocol of the
  doxypress documentation renderer.

  Shallow embedding of:
    - the document node model of src/docparser.h (DocNode::Kind, the concrete
      node classes with the fields the renderer reads, accept / CompAccept);
    - the HTML backend helpers of src/htmldocvisitor.cpp
      (mustBeOutsideParagraph, insideStyleChange_OutsidePara,
       isSeparatedParagraph, getParagraphContext, forceEndParagraph,
       forceStartParagraph, visitPre/visitPost(DocPara),
       visitPre(DocAutoList), visitPre(DocParamList), filter, startLink).

  C++ machine details that the embedding makes explicit:
    - QString values are modelled as Lean String;
    - int indices that may go below zero are modelled by working on the
      already-reversed prefix list of the scanned children, so that "index
      went negative" is "the list is exhausted";
    - pointer identity of a node inside its parent's child list is modelled
      by carrying the node's index in that list (QList::indexOf on the node
      pointer returns exactly that index);
    - external collaborators (translator, external reference resolver,
      global configuration) are parameters of the embedding, collected in
      the Collab structure.
-/

/-- DocNode::Kind, the closed enumeration of node kinds from
    src/docparser.h lines 69-122 (value 50 is unused in the source). -/
inductive Kind where
  | Kind_Root
  | Kind_Word
  | Kind_WhiteSpace
  | Kind_Para
  | Kind_AutoList
  | Kind_AutoListItem
  | Kind_Symbol
  | Kind_URL
  | Kind_StyleChange
  | Kind_SimpleSect
  | Kind_Title
  | Kind_SimpleList
  | Kind_SimpleListItem
  | Kind_Section
  | Kind_Verbatim
  | Kind_XRefItem
  | Kind_HtmlList
  | Kind_HtmlListItem
  | Kind_HtmlDescList
  | Kind_HtmlDescData
  | Kind_HtmlDescTitle
  | Kind_HtmlTable
  | Kind_HtmlRow
  | Kind_HtmlCell
  | Kind_HtmlCaption
  | Kind_LineBreak
  | Kind_HorRuler
  | Kind_Anchor
  | Kind_IndexEntry
  | Kind_Internal
  | Kind_HRef
  | Kind_Include
  | Kind_IncOperator
  | Kind_HtmlHeader
  | Kind_Image
  | Kind_DotFile
  | Kind_Link
  | Kind_Ref
  | Kind_Formula
  | Kind_SecRefItem
  | Kind_SecRefList
  | Kind_SimpleSectSep
  | Kind_LinkedWord
  | Kind_ParamSect
  | Kind_ParamList
  | Kind_InternalRef
  | Kind_Copy
  | Kind_Text
  | Kind_MscFile
  | Kind_HtmlBlockQuote
  | Kind_ParBlock
  | Kind_DiaFile
  deriving DecidableEq, Repr

/-- DocStyleChange::Style (src/docparser.h line 403): a plain sequential
    enumeration, NOT a set of bit flags. -/
inductive Style where
  | Bold
  | Italic
  | Code
  | Center
  | Small
  | Subscript
  | Superscript
  | Preformatted
  | Span
  | Div
  deriving DecidableEq, Repr

/-- The integer value the C++ compiler assigns to each Style enumerator
    (declaration order, starting at 0).  insideStyleChange_OutsidePara
    combines these raw values with bitwise or/and. -/
def Style.value : Style → Nat
  | .Bold => 0
  | .Italic => 1
  | .Code => 2
  | .Center => 3
  | .Small => 4
  | .Subscript => 5
  | .Superscript => 6
  | .Preformatted => 7
  | .Span => 8
  | .Div => 9

/-- DocVerbatim::Type (src/docparser.h line 576). -/
inductive VerbatimType where
  | Code
  | HtmlOnly
  | ManOnly
  | LatexOnly
  | RtfOnly
  | XmlOnly
  | Verbatim
  | Dot
  | Msc
  | DocbookOnly
  | PlantUML
  deriving DecidableEq, Repr

/-- DocSimpleSect::Type (src/docparser.h lines 1555-1558). -/
inductive SimpleSectType where
  | Unknown
  | See
  | Return
  | Author
  | Authors
  | Version
  | Since
  | Date
  | Note
  | Warning
  | Copyright
  | Pre
  | Post
  | Invar
  | Remark
  | Attention
  | User
  | Rcs
  deriving DecidableEq, Repr

/-- DocParamSect::Type (src/docparser.h lines 1604-1606). -/
inductive ParamSectType where
  | Unknown
  | Param
  | RetVal
  | Exception
  | TemplateParam
  deriving DecidableEq, Repr

/-- DocParamSect::Direction (src/docparser.h lines 1607-1609). -/
inductive Direction where
  | Unspecified
  | In
  | Out
  | InOut
  deriving DecidableEq, Repr

/-- The document node tree of src/docparser.h: one constructor per concrete
    DocNode subclass, carrying exactly the fields the verified renderer code
    reads (fields it never reads are elided).  Composite nodes carry their
    CompAccept m_children list in declaration order.  DocParamList carries
    its three lists (m_paramTypes, m_params, m_paragraphs); DocSimpleListItem
    carries its single m_paragraph; DocHtmlTable carries its optional
    m_caption besides its row children.  DocCopy is the deferred-copy node
    whose accept body is empty in the source. -/
inductive DocNode where
  | word (w : String)
  | linkedWord (w ref file anchor tooltip relPath : String)
  | whiteSpace (chars : String)
  | symbol
  | url (u : String)
  | lineBreak
  | horRuler
  | anchorNode (a : String)
  | cite
  | styleChange (style : Style) (enable : Bool) (position : Nat)
  | verbatim (vtype : VerbatimType) (isBlock : Bool) (text : String)
  | includeNode
  | incOperator
  | formula (text : String)
  | indexEntry
  | simpleSectSep
  | copy (link : String)
  | para (children : List DocNode)
  | htmlList (ordered : Bool) (children : List DocNode)
  | autoList (indent : Nat) (isEnumList : Bool) (depth : Nat) (children : List DocNode)
  | autoListItem (children : List DocNode)
  | title (children : List DocNode)
  | xrefItem (children : List DocNode)
  | image (children : List DocNode)
  | dotFile (children : List DocNode)
  | mscFile (children : List DocNode)
  | diaFile (children : List DocNode)
  | link (children : List DocNode)
  | ref (children : List DocNode)
  | internalRef (children : List DocNode)
  | href (children : List DocNode)
  | htmlHeader (level : Nat) (children : List DocNode)
  | htmlDescTitle (children : List DocNode)
  | htmlDescList (children : List DocNode)
  | sectionNode (children : List DocNode)
  | secRefItem (children : List DocNode)
  | secRefList (children : List DocNode)
  | internal (children : List DocNode)
  | parBlock (children : List DocNode)
  | simpleList (children : List DocNode)
  | simpleSect (stype : SimpleSectType) (children : List DocNode)
  | paramSect (ptype : ParamSectType) (hasInOut hasType : Bool) (children : List DocNode)
  | paramList (ptype : ParamSectType) (dir : Direction)
      (paramTypes params paragraphs : List DocNode)
  | simpleListItem (paragraph : DocNode)
  | htmlListItem (children : List DocNode)
  | htmlDescData (children : List DocNode)
  | htmlCell (isHeading : Bool) (children : List DocNode)
  | htmlCaption (children : List DocNode)
  | htmlRow (children : List DocNode)
  | htmlTable (caption : Option DocNode) (children : List DocNode)
  | htmlBlockQuote (children : List DocNode)
  | textNode (children : List DocNode)
  | root (indent singleLine : Bool) (children : List DocNode)

/-- The kind() virtual of each concrete class.  Note that BOTH DocCite and
    DocRef report Kind_Ref (src/docparser.h lines 368 and 1192). -/
def DocNode.kind : DocNode → Kind
  | .word _ => .Kind_Word
  | .linkedWord _ _ _ _ _ _ => .Kind_LinkedWord
  | .whiteSpace _ => .Kind_WhiteSpace
  | .symbol => .Kind_Symbol
  | .url _ => .Kind_URL
  | .lineBreak => .Kind_LineBreak
  | .horRuler => .Kind_HorRuler
  | .anchorNode _ => .Kind_Anchor
  | .cite => .Kind_Ref
  | .styleChange _ _ _ => .Kind_StyleChange
  | .verbatim _ _ _ => .Kind_Verbatim
  | .includeNode => .Kind_Include
  | .incOperator => .Kind_IncOperator
  | .formula _ => .Kind_Formula
  | .indexEntry => .Kind_IndexEntry
  | .simpleSectSep => .Kind_SimpleSectSep
  | .copy _ => .Kind_Copy
  | .para _ => .Kind_Para
  | .htmlList _ _ => .Kind_HtmlList
  | .autoList _ _ _ _ => .Kind_AutoList
  | .autoListItem _ => .Kind_AutoListItem
  | .title _ => .Kind_Title
  | .xrefItem _ => .Kind_XRefItem
  | .image _ => .Kind_Image
  | .dotFile _ => .Kind_DotFile
  | .mscFile _ => .Kind_MscFile
  | .diaFile _ => .Kind_DiaFile
  | .link _ => .Kind_Link
  | .ref _ => .Kind_Ref
  | .internalRef _ => .Kind_InternalRef
  | .href _ => .Kind_HRef
  | .htmlHeader _ _ => .Kind_HtmlHeader
  | .htmlDescTitle _ => .Kind_HtmlDescTitle
  | .htmlDescList _ => .Kind_HtmlDescList
  | .sectionNode _ => .Kind_Section
  | .secRefItem _ => .Kind_SecRefItem
  | .secRefList _ => .Kind_SecRefList
  | .internal _ => .Kind_Internal
  | .parBlock _ => .Kind_ParBlock
  | .simpleList _ => .Kind_SimpleList
  | .simpleSect _ _ => .Kind_SimpleSect
  | .paramSect _ _ _ _ => .Kind_ParamSect
  | .paramList _ _ _ _ _ => .Kind_ParamList
  | .simpleListItem _ => .Kind_SimpleListItem
  | .htmlListItem _ => .Kind_HtmlListItem
  | .htmlDescData _ => .Kind_HtmlDescData
  | .htmlCell _ _ => .Kind_HtmlCell
  | .htmlCaption _ => .Kind_HtmlCaption
  | .htmlRow _ => .Kind_HtmlRow
  | .htmlTable _ _ => .Kind_HtmlTable
  | .htmlBlockQuote _ => .Kind_HtmlBlockQuote
  | .textNode _ => .Kind_Text
  | .root _ _ _ => .Kind_Root

/-- children(): the CompAccept child list of a composite node; the classes
    without a children() accessor (leaves, DocCopy, DocParamList,
    DocSimpleListItem) yield the empty list, and no verified caller reads
    children() on those. -/
def DocNode.children : DocNode → List DocNode
  | .para cs => cs
  | .htmlList _ cs => cs
  | .autoList _ _ _ cs => cs
  | .autoListItem cs => cs
  | .title cs => cs
  | .xrefItem cs => cs
  | .image cs => cs
  | .dotFile cs => cs
  | .mscFile cs => cs
  | .diaFile cs => cs
  | .link cs => cs
  | .ref cs => cs
  | .internalRef cs => cs
  | .href cs => cs
  | .htmlHeader _ cs => cs
  | .htmlDescTitle cs => cs
  | .htmlDescList cs => cs
  | .sectionNode cs => cs
  | .secRefItem cs => cs
  | .secRefList cs => cs
  | .internal cs => cs
  | .parBlock cs => cs
  | .simpleList cs => cs
  | .simpleSect _ cs => cs
  | .paramSect _ _ _ cs => cs
  | .htmlListItem cs => cs
  | .htmlDescData cs => cs
  | .htmlCell _ cs => cs
  | .htmlCaption cs => cs
  | .htmlRow cs => cs
  | .htmlTable _ cs => cs
  | .htmlBlockQuote cs => cs
  | .textNode cs => cs
  | .root _ _ cs => cs
  | _ => []

/-- DocRoot::singleLine() (src/docparser.h line 2108), reached in the
    renderer only after checking kind() == Kind_Root. -/
def DocNode.singleLine : DocNode → Bool
  | .root _ sl _ => sl
  | _ => false

/-- DocParamSect::hasInOutSpecifier() (src/docparser.h line 1624), reached
    only after checking kind() == Kind_ParamSect. -/
def DocNode.hasInOutSpecifier : DocNode → Bool
  | .paramSect _ hio _ _ => hio
  | _ => false

/-- DocParamSect::hasTypeSpecifier() (src/docparser.h line 1627). -/
def DocNode.hasTypeSpecifier : DocNode → Bool
  | .paramSect _ _ hts _ => hts
  | _ => false

/-- DocFormula::isInline (src/docparser.h lines 788-790):
    `m_text.length() > 0 ? m_text.at(0) != BACKSLASH : true`. -/
def formulaIsInline (text : String) : Bool :=
  match text.data with
  | [] => true
  | c :: _ => decide (c ≠ '\\')

/-- mustBeOutsideParagraph (src/htmldocvisitor.cpp lines 60-123): the fixed
    classification table over node kinds, with the payload-dependent cases
    for DocVerbatim, DocStyleChange and DocFormula. -/
def mustBeOutsideParagraph (n : DocNode) : Bool :=
  match n with
  | .htmlList _ _ => true
  | .simpleList _ => true
  | .autoList _ _ _ _ => true
  | .simpleSect _ _ => true
  | .paramSect _ _ _ _ => true
  | .htmlDescList _ => true
  | .xrefItem _ => true
  | .htmlTable _ _ => true
  | .sectionNode _ => true
  | .htmlHeader _ _ => true
  | .internal _ => true
  | .includeNode => true
  | .image _ => true
  | .secRefList _ => true
  | .horRuler => true
  | .copy _ => true
  | .htmlBlockQuote _ => true
  | .parBlock _ => true
  | .verbatim t isB _ => decide (t ≠ VerbatimType.HtmlOnly) || isB
  | .styleChange s _ _ =>
      decide (s = .Preformatted) || decide (s = .Div) || decide (s = .Center)
  | .formula text => ! formulaIsInline text
  | _ => false

/-- The whitespace-skipping renderer loops
    `while (... && kind() == Kind_WhiteSpace)` that step nodeIndex down or
    up, applied to the list of children in scan order. -/
def skipWs (l : List DocNode) : List DocNode :=
  l.dropWhile (fun n => decide (n.kind = Kind.Kind_WhiteSpace))

/-- The loop body of insideStyleChange_OutsidePara (src/htmldocvisitor.cpp
    lines 2337-2366), walking the children from index nodeIndex down to 0;
    the argument list is that backward scan order (reverse document order).
    styleMask accumulates the RAW enum values of styles seen disabled,
    combined with C++ `|=`, and an enable is recognised as still active when
    `(styleMask & (int)sc->style()) == 0` - bitwise on the raw values. -/
def insideStyleScan (styleMask : Nat) : List DocNode → Bool
  | [] => false
  | n :: rest =>
    match n with
    | .styleChange s en _ =>
      let styleMask := if en = false then styleMask ||| s.value else styleMask
      let paraStyle := s = Style.Center ∨ s = Style.Div ∨ s = Style.Preformatted
      if en = true ∧ styleMask &&& s.value = 0 ∧ paraStyle then
        true
      else
        insideStyleScan styleMask rest
    | _ => insideStyleScan styleMask rest

/-- insideStyleChange_OutsidePara(para, nodeIndex) where `scan` is the list
    of para's children from index nodeIndex down to index 0 (empty when
    nodeIndex went negative). -/
def insideStyleChange_OutsidePara (scan : List DocNode) : Bool :=
  insideStyleScan 0 scan

/-- kind test the three branches of isSeparatedParagraph perform on a
    neighbouring child (`nodes.at(j)->kind() == DocNode::Kind_SimpleSectSep`). -/
def sepAt (nodes : List DocNode) (j : Nat) : Bool :=
  match nodes.get? j with
  | some n => decide (n.kind = Kind.Kind_SimpleSectSep)
  | none => false

/-- isSeparatedParagraph (src/htmldocvisitor.cpp lines 813-840).  `nodes` is
    the simple section's child list and `i` the paragraph's position in it
    (QList::indexOf on the paragraph pointer). -/
def isSeparatedParagraph (nodes : List DocNode) (i : Nat) : Bool :=
  let count := nodes.length
  if 1 < count ∧ i = 0 then
    sepAt nodes (i + 1)
  else if 1 < count ∧ i = count - 1 then
    sepAt nodes (i - 1)
  else if 2 < count ∧ 0 < i ∧ i < count - 1 then
    sepAt nodes (i - 1) && sepAt nodes (i + 1)
  else
    false

/-- The surroundings of a DocPara that getParagraphContext and the DocPara
    visitors read through pointer navigation: the paragraph's parent node
    (none models a null parent), the paragraph's index in the parent's child
    list (pointer identity in isFirstChildNode / isLastChildNode /
    QList::indexOf), and for the parblock branch the kind of
    p->parent()->parent()->parent() (none when the grandparent or the
    great-grandparent is null). -/
structure ParaEnv where
  parent : Option DocNode
  idx : Nat
  ggpKind : Option Kind

/-- isFirstChildNode(parent, p) (src/htmldocvisitor.cpp line 802):
    `parent->children().first() == p`, i.e. p sits at index 0. -/
def isFirstChildNode (env : ParaEnv) : Bool :=
  decide (env.idx = 0)

/-- isLastChildNode(parent, p) (src/htmldocvisitor.cpp line 808):
    `parent->children().last() == p`, i.e. p sits at the last index. -/
def isLastChildNode (parent : DocNode) (env : ParaEnv) : Bool :=
  decide (env.idx + 1 = parent.children.length)

/-- getParagraphContext (src/htmldocvisitor.cpp lines 842-985), returning
    (t, isFirst, isLast). -/
def getParagraphContext (env : ParaEnv) : Nat × Bool × Bool :=
  match env.parent with
  | none => (0, false, false)
  | some parent =>
    match parent.kind with
    | .Kind_ParBlock =>
      -- hierarchy: node N -> para -> parblock -> para; adapt t to kind of N
      let kind := match env.ggpKind with
        | some k => k
        | none => Kind.Kind_Para
      let isFirst := isFirstChildNode env
      let isLast := isLastChildNode parent env
      let t := 0
      let t := if isFirst then
          if kind = Kind.Kind_HtmlListItem ∨ kind = Kind.Kind_SecRefItem then 1
          else if kind = Kind.Kind_HtmlDescData ∨ kind = Kind.Kind_XRefItem ∨
                    kind = Kind.Kind_SimpleSect then 2
          else if kind = Kind.Kind_HtmlCell ∨ kind = Kind.Kind_ParamList then 5
          else t
        else t
      let t := if isLast then
          if kind = Kind.Kind_HtmlListItem ∨ kind = Kind.Kind_SecRefItem then 3
          else if kind = Kind.Kind_HtmlDescData ∨ kind = Kind.Kind_XRefItem ∨
                    kind = Kind.Kind_SimpleSect then 4
          else if kind = Kind.Kind_HtmlCell ∨ kind = Kind.Kind_ParamList then 6
          else t
        else t
      (t, isFirst, isLast)
    | .Kind_AutoListItem =>
      (1, isFirstChildNode env, isLastChildNode parent env)
    | .Kind_SimpleListItem =>
      (1, true, true)
    | .Kind_ParamList =>
      (1, true, true)
    | .Kind_HtmlListItem =>
      let isFirst := isFirstChildNode env
      let isLast := isLastChildNode parent env
      let t := if isFirst then 1 else 0
      let t := if isLast then 3 else t
      (t, isFirst, isLast)
    | .Kind_SecRefItem =>
      let isFirst := isFirstChildNode env
      let isLast := isLastChildNode parent env
      let t := if isFirst then 1 else 0
      let t := if isLast then 3 else t
      (t, isFirst, isLast)
    | .Kind_HtmlDescData =>
      let isFirst := isFirstChildNode env
      let isLast := isLastChildNode parent env
      let t := if isFirst then 2 else 0
      let t := if isLast then 4 else t
      (t, isFirst, isLast)
    | .Kind_XRefItem =>
      let isFirst := isFirstChildNode env
      let isLast := isLastChildNode parent env
      let t := if isFirst then 2 else 0
      let t := if isLast then 4 else t
      (t, isFirst, isLast)
    | .Kind_SimpleSect =>
      let isFirst := isFirstChildNode env
      let isLast := isLastChildNode parent env
      let t := if isFirst then 2 else 0
      let t := if isLast then 4 else t
      -- a paragraph enclosed by separators is rendered inside <dd>..</dd>,
      -- avoid additional paragraph markers
      if isSeparatedParagraph parent.children env.idx then
        (t, true, true)
      else
        (t, isFirst, isLast)
    | .Kind_HtmlCell =>
      let isFirst := isFirstChildNode env
      let isLast := isLastChildNode parent env
      let t := if isFirst then 5 else 0
      let t := if isLast then 6 else t
      (t, isFirst, isLast)
    | _ => (0, false, false)

/-- forceEndParagraph (src/htmldocvisitor.cpp lines 2372-2415) for a node
    that sits at index i of the child list `children` of its parent
    paragraph (the guard n->parent()->kind() == Kind_Para holds); `env` is
    that paragraph's own surroundings.  Returns true exactly when the
    method writes the close marker. -/
def forceEndParagraph_emits (env : ParaEnv) (children : List DocNode) (i : Nat) : Bool :=
  -- nodeIndex = indexOf(n) - 1; nodeIndex < 0 means there is nothing before n
  match (children.take i).reverse with
  | [] => false
  | prev =>
    match skipWs prev with
    | n :: rest =>
      if mustBeOutsideParagraph n then
        false
      else
        -- nodeIndex-- past the inspected node, then the style scan
        let styleOutsideParagraph := insideStyleChange_OutsidePara rest
        let ctx := getParagraphContext env
        if ctx.2.1 = true ∧ ctx.2.2 = true then false
        else if styleOutsideParagraph then false
        else true
    | [] =>
      -- only whitespace before n: the scan starts below index 0 and is empty
      let styleOutsideParagraph := insideStyleChange_OutsidePara []
      let ctx := getParagraphContext env
      if ctx.2.1 = true ∧ ctx.2.2 = true then false
      else if styleOutsideParagraph then false
      else true

/-- forceStartParagraph (src/htmldocvisitor.cpp lines 2421-2470) for a node
    at index i of its parent paragraph's child list.  Returns true exactly
    when the method writes the open marker. -/
def forceStartParagraph_emits (env : ParaEnv) (children : List DocNode) (i : Nat) : Bool :=
  -- the style scan starts at the node's own index and walks to the front
  let styleOutsideParagraph := insideStyleChange_OutsidePara ((children.take (i + 1)).reverse)
  if styleOutsideParagraph then
    false
  else
    match children.drop (i + 1) with
    | [] => false -- last node
    | next =>
      match skipWs next with
      | n :: _ => if mustBeOutsideParagraph n then
            false
          else
            let ctx := getParagraphContext env
            if ctx.2.1 = true ∧ ctx.2.2 = true then false
            else true
      | [] => false -- only whitespace at the end

/-- The parent-kind switch shared by visitPre(DocPara) and visitPost(DocPara)
    (src/htmldocvisitor.cpp lines 994-1016 and 1071-1096) computing the
    initial needsTag value. -/
def paraParentNeedsTag (parent : Option DocNode) : Bool :=
  match parent with
  | none => false
  | some parent =>
    match parent.kind with
    | .Kind_Section => true
    | .Kind_Internal => true
    | .Kind_HtmlListItem => true
    | .Kind_HtmlDescData => true
    | .Kind_HtmlCell => true
    | .Kind_SimpleListItem => true
    | .Kind_AutoListItem => true
    | .Kind_SimpleSect => true
    | .Kind_XRefItem => true
    | .Kind_Copy => true
    | .Kind_HtmlBlockQuote => true
    | .Kind_ParBlock => true
    | .Kind_Root => ! parent.singleLine
    | _ => false

/-- The first-element scan of visitPre(DocPara) (lines 1021-1035): true when
    the first non-whitespace child must be outside a paragraph, in which
    case that child has already opened the block context. -/
def leadingMustBeOutside (children : List DocNode) : Bool :=
  match skipWs children with
  | n :: _ => mustBeOutsideParagraph n
  | [] => false

/-- The last-element scan of visitPost(DocPara) (lines 1102-1114). -/
def trailingMustBeOutside (children : List DocNode) : Bool :=
  match skipWs children.reverse with
  | n :: _ => mustBeOutsideParagraph n
  | [] => false

/-- The contexts table of visitPre(DocPara) (lines 1042-1050). -/
def contexts : List String :=
  ["",
   " class=\"startli\"",
   " class=\"startdd\"",
   " class=\"endli\"",
   " class=\"enddd\"",
   " class=\"starttd\"",
   " class=\"endtd\""]

/-- visitPre(DocPara) (src/htmldocvisitor.cpp lines 987-1065) with
    m_hide = false (its initial value): the text written for the paragraph
    open marker, "" when the marker is suppressed. -/
def visitPre_DocPara (env : ParaEnv) (children : List DocNode) : String :=
  let needsTag := paraParentNeedsTag env.parent
  let needsTag := if leadingMustBeOutside children then false else needsTag
  let ctx := getParagraphContext env
  let needsTag := if ctx.2.1 = true ∧ ctx.2.2 = true then false else needsTag
  if needsTag then "<p" ++ contexts.getD ctx.1 "" ++ ">" else ""

/-- visitPost(DocPara) (src/htmldocvisitor.cpp lines 1067-1128): the text
    written for the paragraph close marker, "" when suppressed. -/
def visitPost_DocPara (env : ParaEnv) (children : List DocNode) : String :=
  let needsTag := paraParentNeedsTag env.parent
  let needsTag := if trailingMustBeOutside children then false else needsTag
  let ctx := getParagraphContext env
  let needsTag := if ctx.2.1 = true ∧ ctx.2.2 = true then false else needsTag
  if needsTag then "</p>\n" else ""

/-- Where a visited node n sits when its parent is a paragraph: the
    paragraph's surroundings, the paragraph's child list and n's index in
    it.  forceEndParagraph / forceStartParagraph act only in this case;
    `none` models n->parent() being null or not a paragraph. -/
structure NodeInPara where
  env : ParaEnv
  sibs : List DocNode
  idx : Nat

/-- The text forceEndParagraph writes for a node (the `</p>` marker or
    nothing). -/
def forceEndParagraph_out (pos : Option NodeInPara) : String :=
  match pos with
  | none => ""
  | some p => if forceEndParagraph_emits p.env p.sibs p.idx then "</p>" else ""

/-- The text forceStartParagraph writes for a node (the `<p>` marker or
    nothing). -/
def forceStartParagraph_out (pos : Option NodeInPara) : String :=
  match pos with
  | none => ""
  | some p => if forceStartParagraph_emits p.env p.sibs p.idx then "<p>" else ""

/-- `types`, the list-type marker table of the HTML visitor
    (src/htmldocvisitor.cpp lines 37-38), indexed by depth % 4. -/
def typesTable : List String := ["1", "a", "i", "A"]

/-- NUM_HTML_LIST_TYPES (src/htmldocvisitor.cpp line 37). -/
def NUM_HTML_LIST_TYPES : Nat := 4

/-- visitPre(DocAutoList) (src/htmldocvisitor.cpp lines 735-761) with
    m_hide = false: first forceEndParagraph(l), then the list open tag.
    `pos` is the auto list's position when its parent is a paragraph,
    `isPre` is the node's isPreformatted() flag. -/
def visitPre_DocAutoList (pos : Option NodeInPara) (isEnumList : Bool) (depth : Nat)
    (isPre : Bool) : String :=
  forceEndParagraph_out pos ++
  (if isEnumList then
    "<ol type=\"" ++ typesTable.getD (depth % NUM_HTML_LIST_TYPES) "" ++ "\">"
  else
    "<ul>") ++
  (if !isPre then "\n" else "")

/-- The external collaborators the verified rendering fragments call into:
    the translation provider behind the `$tr` sample-translation hook of
    filter(), and the external-reference helpers used by startLink()
    (externalLinkTarget(), externalRef(), Doxy_Globals::htmlFileExtension).
    They live outside this subsystem (spec sections 1 and 6), so the
    embedding takes them as parameters. -/
structure Collab where
  trExpand : String → String
  externalLinkTarget : String
  externalRef : String → String → Bool → String
  htmlFileExtension : String

/-- The per-character escaping switch inside HtmlDocVisitor::filter
    (src/htmldocvisitor.cpp lines 2122-2140). -/
def htmlEscapeChar (c : Char) : String :=
  if c = '<' then "&lt;"
  else if c = '>' then "&gt;"
  else if c = '&' then "&amp;"
  else String.singleton c

/-- QString::contains("$tr") as used by filter(). -/
def containsTrMarker (s : String) : Bool :=
  decide ((s.splitOn "$tr").length ≠ 1)

/-- HtmlDocVisitor::filter (src/htmldocvisitor.cpp lines 2102-2141): the
    optional `$tr` sample-translation replacement (delegated to the
    translator collaborator) followed by the HTML escaping loop. -/
def filter (cb : Collab) (s : String) : String :=
  if s.isEmpty then ""
  else
    let result := if containsTrMarker s then cb.trExpand s else s
    String.join (result.data.map htmlEscapeChar)

/-- HtmlDocVisitor::startLink (src/htmldocvisitor.cpp lines 2176-2208). -/
def startLink (cb : Collab) (ref file relPath anchor tooltip : String) : String :=
  (if !ref.isEmpty then
    "<a class=\"elRef\" " ++ cb.externalLinkTarget ++ cb.externalRef relPath ref false
  else
    "<a class=\"el\" ") ++
  "href=\"" ++ cb.externalRef relPath ref true ++
  (if !file.isEmpty then file ++ cb.htmlFileExtension else "") ++
  (if !anchor.isEmpty then "#" ++ anchor else "") ++
  "\"" ++
  (if !tooltip.isEmpty then " title=\"" ++ tooltip.replace "\"" "&quot;" ++ "\"" else "") ++
  ">"

/-- HtmlDocVisitor::endLink (src/htmldocvisitor.cpp lines 2210-2213). -/
def endLink : String := "</a>"

/-- visit(DocWord) (src/htmldocvisitor.cpp lines 150-157) with
    m_hide = false. -/
def visit_DocWord (cb : Collab) (w : String) : String :=
  filter cb w

/-- visit(DocLinkedWord) (src/htmldocvisitor.cpp lines 159-168) with
    m_hide = false. -/
def visit_DocLinkedWord (cb : Collab) (w ref file anchor tooltip relPath : String) : String :=
  startLink cb ref file relPath anchor tooltip ++ filter cb w ++ endLink

/-- The per-entry dispatch inside the two loops of visitPre(DocParamList)
    (src/htmldocvisitor.cpp lines 1934-1947 and 1957-1969): only Kind_Word
    and Kind_LinkedWord entries produce output. -/
def renderParamEntry (cb : Collab) (n : DocNode) : String :=
  match n with
  | .word w => visit_DocWord cb w
  | .linkedWord w ref file anchor tooltip relPath =>
      visit_DocLinkedWord cb w ref file anchor tooltip relPath
  | _ => ""

/-- The `first` flag loop of visitPre(DocParamList): the separator is
    written before every entry but the first, whatever the entry renders. -/
def sepJoin (cb : Collab) (sep : String) : List DocNode → String
  | [] => ""
  | x :: xs => renderParamEntry cb x ++ String.join (xs.map (fun y => sep ++ renderParamEntry cb y))

/-- The direction cell of visitPre(DocParamList) (lines 1913-1927), written
    only when the enclosing section has the in/out specifier. -/
def dirCellOut (d : Direction) : String :=
  "<td class=\"paramdir\">" ++
  (if d ≠ Direction.Unspecified then
    "[" ++
    (if d = Direction.In then "in"
     else if d = Direction.Out then "out"
     else if d = Direction.InOut then "in,out"
     else "") ++
    "]"
  else "") ++
  "</td>"

/-- The type cell of visitPre(DocParamList) (lines 1929-1951), written only
    when the enclosing section has the type specifier. -/
def typeCellOut (cb : Collab) (paramTypes : List DocNode) : String :=
  "<td class=\"paramtype\">" ++ sepJoin cb "&#160;|&#160;" paramTypes ++ "</td>"

/-- The name cell of visitPre(DocParamList) (lines 1953-1972), always
    written, followed by the opening of the description cell. -/
def nameCellOut (cb : Collab) (params : List DocNode) : String :=
  "<td class=\"paramname\">" ++ sepJoin cb "," params ++ "</td><td>"

/-- visitPre(DocParamList) (src/htmldocvisitor.cpp lines 1900-1973) with
    m_hide = false: `parent` is pl->parent() (dereferenced unconditionally
    in the source), `dir` the row's direction(), `paramTypes` and `params`
    its two entry lists.  sect is null unless the parent is a DocParamSect,
    and the direction and type cells are gated on the section's two flags
    alone. -/
def visitPre_DocParamList (cb : Collab) (parent : DocNode) (dir : Direction)
    (paramTypes params : List DocNode) : String :=
  "    <tr>" ++
  (if decide (parent.kind = Kind.Kind_ParamSect) && parent.hasInOutSpecifier then
    dirCellOut dir
  else "") ++
  (if decide (parent.kind = Kind.Kind_ParamSect) && parent.hasTypeSpecifier then
    typeCellOut cb paramTypes
  else "") ++
  nameCellOut cb params

/-- One step of a visitor traversal: the three DocVisitor entry points a
    node's accept may call (visitPre/visitPost for composites, visit for
    leaves). -/
inductive VisitEvent where
  | visitPre (n : DocNode)
  | visitPost (n : DocNode)
  | visit (n : DocNode)

/-- The child list a composite node's accept iterates: the CompAccept
    m_children for the CompAccept classes, m_paragraphs for DocParamList
    (src/docparser.h lines 1750-1758), the single m_paragraph for
    DocSimpleListItem (lines 1788-1792).  Leaves and DocCopy iterate
    nothing. -/
def acceptChildren : DocNode → List DocNode
  | .paramList _ _ _ _ paras => paras
  | .simpleListItem p => [p]
  | n => n.children

mutual

/-- The trace of visitor calls produced by DocNode::accept.  Each leaf class
    dispatches `v->visit(this)` once; each CompAccept composite dispatches
    `v->visitPre(this)`, the accept of each child in child-list order, then
    `v->visitPost(this)` (src/docparser.h lines 178-186); DocParamList and
    DocSimpleListItem follow the same shape over their own child lists
    (lines 1750-1758, 1788-1792); DocCopy::accept has an empty body
    (lines 853-855).
    Modelled from the spec: DocSimpleSect::accept and DocHtmlTable::accept
    are only declared in src/docparser.h (lines 1568 and 2035) and their
    bodies live in docparser.cpp, which is not part of this repository
    snapshot; following spec section 4.3 ("composite nodes call
    visitPre(node), then dispatch accept to each child in child-list order,
    then call visitPost(node)") they are given the standard composite
    traversal over their child lists. -/
def accept (n : DocNode) : List VisitEvent :=
  match n with
  | .word w => [.visit (.word w)]
  | .linkedWord w r f a tt rp => [.visit (.linkedWord w r f a tt rp)]
  | .whiteSpace c => [.visit (.whiteSpace c)]
  | .symbol => [.visit .symbol]
  | .url u => [.visit (.url u)]
  | .lineBreak => [.visit .lineBreak]
  | .horRuler => [.visit .horRuler]
  | .anchorNode a => [.visit (.anchorNode a)]
  | .cite => [.visit .cite]
  | .styleChange s e p => [.visit (.styleChange s e p)]
  | .verbatim t b x => [.visit (.verbatim t b x)]
  | .includeNode => [.visit .includeNode]
  | .incOperator => [.visit .incOperator]
  | .formula x => [.visit (.formula x)]
  | .indexEntry => [.visit .indexEntry]
  | .simpleSectSep => [.visit .simpleSectSep]
  | .copy _ => []
  | .para cs =>
      .visitPre (.para cs) :: acceptList cs ++ [.visitPost (.para cs)]
  | .htmlList o cs =>
      .visitPre (.htmlList o cs) :: acceptList cs ++ [.visitPost (.htmlList o cs)]
  | .autoList i e d cs =>
      .visitPre (.autoList i e d cs) :: acceptList cs ++ [.visitPost (.autoList i e d cs)]
  | .autoListItem cs =>
      .visitPre (.autoListItem cs) :: acceptList cs ++ [.visitPost (.autoListItem cs)]
  | .title cs =>
      .visitPre (.title cs) :: acceptList cs ++ [.visitPost (.title cs)]
  | .xrefItem cs =>
      .visitPre (.xrefItem cs) :: acceptList cs ++ [.visitPost (.xrefItem cs)]
  | .image cs =>
      .visitPre (.image cs) :: acceptList cs ++ [.visitPost (.image cs)]
  | .dotFile cs =>
      .visitPre (.dotFile cs) :: acceptList cs ++ [.visitPost (.dotFile cs)]
  | .mscFile cs =>
      .visitPre (.mscFile cs) :: acceptList cs ++ [.visitPost (.mscFile cs)]
  | .diaFile cs =>
      .visitPre (.diaFile cs) :: acceptList cs ++ [.visitPost (.diaFile cs)]
  | .link cs =>
      .visitPre (.link cs) :: acceptList cs ++ [.visitPost (.link cs)]
  | .ref cs =>
      .visitPre (.ref cs) :: acceptList cs ++ [.visitPost (.ref cs)]
  | .internalRef cs =>
      .visitPre (.internalRef cs) :: acceptList cs ++ [.visitPost (.internalRef cs)]
  | .href cs =>
      .visitPre (.href cs) :: acceptList cs ++ [.visitPost (.href cs)]
  | .htmlHeader l cs =>
      .visitPre (.htmlHeader l cs) :: acceptList cs ++ [.visitPost (.htmlHeader l cs)]
  | .htmlDescTitle cs =>
      .visitPre (.htmlDescTitle cs) :: acceptList cs ++ [.visitPost (.htmlDescTitle cs)]
  | .htmlDescList cs =>
      .visitPre (.htmlDescList cs) :: acceptList cs ++ [.visitPost (.htmlDescList cs)]
  | .sectionNode cs =>
      .visitPre (.sectionNode cs) :: acceptList cs ++ [.visitPost (.sectionNode cs)]
  | .secRefItem cs =>
      .visitPre (.secRefItem cs) :: acceptList cs ++ [.visitPost (.secRefItem cs)]
  | .secRefList cs =>
      .visitPre (.secRefList cs) :: acceptList cs ++ [.visitPost (.secRefList cs)]
  | .internal cs =>
      .visitPre (.internal cs) :: acceptList cs ++ [.visitPost (.internal cs)]
  | .parBlock cs =>
      .visitPre (.parBlock cs) :: acceptList cs ++ [.visitPost (.parBlock cs)]
  | .simpleList cs =>
      .visitPre (.simpleList cs) :: acceptList cs ++ [.visitPost (.simpleList cs)]
  | .simpleSect t cs =>
      .visitPre (.simpleSect t cs) :: acceptList cs ++ [.visitPost (.simpleSect t cs)]
  | .paramSect t a b cs =>
      .visitPre (.paramSect t a b cs) :: acceptList cs ++ [.visitPost (.paramSect t a b cs)]
  | .paramList t d tys ps paras =>
      .visitPre (.paramList t d tys ps paras) :: acceptList paras ++
        [.visitPost (.paramList t d tys ps paras)]
  | .simpleListItem p =>
      .visitPre (.simpleListItem p) :: accept p ++ [.visitPost (.simpleListItem p)]
  | .htmlListItem cs =>
      .visitPre (.htmlListItem cs) :: acceptList cs ++ [.visitPost (.htmlListItem cs)]
  | .htmlDescData cs =>
      .visitPre (.htmlDescData cs) :: acceptList cs ++ [.visitPost (.htmlDescData cs)]
  | .htmlCell h cs =>
      .visitPre (.htmlCell h cs) :: acceptList cs ++ [.visitPost (.htmlCell h cs)]
  | .htmlCaption cs =>
      .visitPre (.htmlCaption cs) :: acceptList cs ++ [.visitPost (.htmlCaption cs)]
  | .htmlRow cs =>
      .visitPre (.htmlRow cs) :: acceptList cs ++ [.visitPost (.htmlRow cs)]
  | .htmlTable cap cs =>
      .visitPre (.htmlTable cap cs) :: acceptList cs ++ [.visitPost (.htmlTable cap cs)]
  | .htmlBlockQuote cs =>
      .visitPre (.htmlBlockQuote cs) :: acceptList cs ++ [.visitPost (.htmlBlockQuote cs)]
  | .textNode cs =>
      .visitPre (.textNode cs) :: acceptList cs ++ [.visitPost (.textNode cs)]
  | .root i s cs =>
      .visitPre (.root i s cs) :: acceptList cs ++ [.visitPost (.root i s cs)]

/-- The child loop of CompAccept::accept: each child's accept in list
    order. -/
def acceptList (l : List DocNode) : List VisitEvent :=
  match l with
  | [] => []
  | n :: ns => accept n ++ acceptList ns

end

/-- The leaf node classes (spec section 3, "Leaf (no children)"): those
    whose accept is a single v->visit(this).  DocCopy is the spec's third
    shape and is neither leaf nor composite. -/
def isLeafNode : DocNode → Bool
  | .word _ => true
  | .linkedWord _ _ _ _ _ _ => true
  | .whiteSpace _ => true
  | .symbol => true
  | .url _ => true
  | .lineBreak => true
  | .horRuler => true
  | .anchorNode _ => true
  | .cite => true
  | .styleChange _ _ _ => true
  | .verbatim _ _ _ => true
  | .includeNode => true
  | .incOperator => true
  | .formula _ => true
  | .indexEntry => true
  | .simpleSectSep => true
  | _ => false

/-- The composite node classes (spec section 3, "Composite"): those whose
    accept dispatches over an ordered child list. -/
def isCompositeNode : DocNode → Bool
  | .copy _ => false
  | n => ! isLeafNode n

/-- The must-be-outside-paragraph table exactly as the claim states it:
    the always-true kinds INCLUDING the dot-like diagram file references
    (call-graph, sequence-diagram and generic-diagram file nodes), verbatim
    unless an inline HTML-only fragment, style changes only for
    Preformatted/Div/Center, and formulas exactly when not inline. -/
def mustBeOutsideParagraph_claimTable (n : DocNode) : Bool :=
  match n with
  | .htmlList _ _ => true
  | .simpleList _ => true
  | .autoList _ _ _ _ => true
  | .simpleSect _ _ => true
  | .paramSect _ _ _ _ => true
  | .htmlDescList _ => true
  | .xrefItem _ => true
  | .htmlTable _ _ => true
  | .sectionNode _ => true
  | .htmlHeader _ _ => true
  | .internal _ => true
  | .includeNode => true
  | .image _ => true
  | .dotFile _ => true
  | .mscFile _ => true
  | .diaFile _ => true
  | .secRefList _ => true
  | .horRuler => true
  | .copy _ => true
  | .htmlBlockQuote _ => true
  | .parBlock _ => true
  | .verbatim t isB _ => ! (decide (t = VerbatimType.HtmlOnly) && ! isB)
  | .styleChange s _ _ =>
      decide (s = Style.Preformatted) || decide (s = Style.Div) || decide (s = Style.Center)
  | .formula text => ! formulaIsInline text
  | _ => false

/-- The claim's table with the one change its counterexample forces: the
    dot-like diagram file reference kinds are NOT in the switch of
    mustBeOutsideParagraph and classify as false. -/
def mustBeOutsideParagraph_amendedTable (n : DocNode) : Bool :=
  match n with
  | .htmlList _ _ => true
  | .simpleList _ => true
  | .autoList _ _ _ _ => true
  | .simpleSect _ _ => true
  | .paramSect _ _ _ _ => true
  | .htmlDescList _ => true
  | .xrefItem _ => true
  | .htmlTable _ _ => true
  | .sectionNode _ => true
  | .htmlHeader _ _ => true
  | .internal _ => true
  | .includeNode => true
  | .image _ => true
  | .secRefList _ => true
  | .horRuler => true
  | .copy _ => true
  | .htmlBlockQuote _ => true
  | .parBlock _ => true
  | .verbatim t isB _ => ! (decide (t = VerbatimType.HtmlOnly) && ! isB)
  | .styleChange s _ _ =>
      decide (s = Style.Preformatted) || decide (s = Style.Div) || decide (s = Style.Center)
  | .formula text => ! formulaIsInline text
  | _ => false

/-- The single-dollar delimiter pattern the claim says DocFormula::isInline
    tests: nonempty raw text whose first and last characters are both a
    dollar sign (the test the MathJax branch of visit(DocFormula) performs
    on inline formulas, src/htmldocvisitor.cpp line 664). -/
def wrappedInSingleDollar (text : String) : Bool :=
  match text.data with
  | [] => false
  | c :: rest => decide (c = '$') && decide ((c :: rest).getLast (by simp) = '$')

/-- Modelled from the spec: the per-style still-open check of spec section
    4.4 step 3 and of the source doc comment of insideStyleChange_OutsidePara
    ("a style change node that is still active"): walking the same backward
    scan, a disable records exactly ITS style as closed, and an enable of
    Center/Div/Preformatted counts only when that same style has not been
    recorded closed.  This is the claimed behaviour, against which the
    bitmask implementation is compared. -/
def stillOpenStyleScan (closed : List Style) : List DocNode → Bool
  | [] => false
  | n :: rest =>
    match n with
    | .styleChange s en _ =>
      let closed := if en = false then s :: closed else closed
      let paraStyle := s = Style.Center ∨ s = Style.Div ∨ s = Style.Preformatted
      if en = true ∧ ¬ s ∈ closed ∧ paraStyle then
        true
      else
        stillOpenStyleScan closed rest
    | _ => stillOpenStyleScan closed rest

/-- C3 failing input: the children of a paragraph holding, in document
    order, a word, a still-open center span, a word, an italic DISABLE, a
    word, and a horizontal rule at index 5 for which forceEndParagraph is
    invoked. -/
def c3kids : List DocNode :=
  [DocNode.word "a",
   DocNode.styleChange Style.Center true 0,
   DocNode.word "b",
   DocNode.styleChange Style.Italic false 1,
   DocNode.word "c",
   DocNode.horRuler]

/-- C3 failing input for the reopen side: the same still-open center span
    followed by an italic disable, a horizontal rule at index 4 and a
    trailing word. -/
def c3kidsStart : List DocNode :=
  [DocNode.word "a",
   DocNode.styleChange Style.Center true 0,
   DocNode.word "b",
   DocNode.styleChange Style.Italic false 1,
   DocNode.horRuler,
   DocNode.word "c"]

/-- "The node at index j of the paragraph is classified
    must-be-outside-paragraph". -/
def mboAt (children : List DocNode) (j : Nat) : Bool :=
  match children.get? j with
  | some n => mustBeOutsideParagraph n
  | none => false

/-- "The node at index t of the paragraph is a whitespace node". -/
def wsAt (children : List DocNode) (t : Nat) : Bool :=
  match children.get? t with
  | some n => decide (n.kind = Kind.Kind_WhiteSpace)
  | none => false

/-- "Every node strictly between indices a and b is whitespace". -/
def wsBetween (children : List DocNode) (a b : Nat) : Bool :=
  (List.range' (a + 1) (b - (a + 1))).all (wsAt children)

/-- A run of adjacent must-be-outside nodes separated only by whitespace:
    strictly increasing indices, each classified must-be-outside, with only
    whitespace nodes strictly between consecutive ones. -/
def isRun (children : List DocNode) : List Nat → Bool
  | [] => true
  | [j] => mboAt children j
  | a :: b :: rest =>
      mboAt children a && decide (a < b) && wsBetween children a b &&
        isRun children (b :: rest)

/-- C2 witness input: a paragraph holding a word, a horizontal rule, a
    whitespace run and another horizontal rule; the two rules at indices 1
    and 3 form a must-be-outside run separated only by whitespace. -/
def c2kids : List DocNode :=
  [DocNode.word "t", DocNode.horRuler, DocNode.whiteSpace " ", DocNode.horRuler]

/-- C1 counterexample: the claim's table classifies a diagram file
    reference (here a call-graph DotFile node) as must-be-outside, but
    mustBeOutsideParagraph has no case for Kind_DotFile and returns false
    for it (and likewise for Kind_MscFile and Kind_DiaFile). -/
theorem C1_counterexample_dotFile :
    mustBeOutsideParagraph (DocNode.dotFile []) = false ∧
    mustBeOutsideParagraph_claimTable (DocNode.dotFile []) = true ∧
    mustBeOutsideParagraph (DocNode.mscFile []) = false ∧
    mustBeOutsideParagraph (DocNode.diaFile []) = false := by
  refine ⟨rfl, rfl, rfl, rfl⟩

/-- C1 (amended): mustBeOutsideParagraph returns true exactly for the
    claim's fixed table with the dot-like diagram file references removed:
    HTML/simple/auto lists, simple sections, parameter sections, HTML
    description lists, cross-reference items, HTML tables, sections, HTML
    headers, internal blocks, includes, images, section-reference lists,
    horizontal rules, copy nodes, HTML block quotes and par-blocks always;
    verbatim nodes unless they are inline HTML-only fragments; style-change
    nodes only for Preformatted, Div or Center; formula nodes exactly when
    not inline; false for every other node kind. -/
theorem C1_mustBeOutsideParagraph_table (n : DocNode) :
    mustBeOutsideParagraph n = mustBeOutsideParagraph_amendedTable n := by
  cases n <;> try rfl
  case verbatim t isB x => cases t <;> cases isB <;> rfl

/-- C7 counterexample: a formula whose raw text is the bare word "x" is not
    wrapped in single dollars, yet DocFormula::isInline classifies it as
    inline; the classification therefore is not "wrapped in a single-dollar
    delimiter pattern". -/
theorem C7_counterexample_isInline :
    formulaIsInline "x" = true ∧ wrappedInSingleDollar "x" = false := by
  refine ⟨rfl, by decide⟩

/-- C7 (amended): DocFormula::isInline infers the inline-versus-display
    classification from the first character of the raw text alone: a
    formula is inline if and only if its text is empty or does not start
    with a backslash (display formulas are the backslash-delimited ones;
    single-dollar-wrapped texts start with a dollar and therefore classify
    as inline). -/
theorem C7_isInline_firstChar (text : String) :
    formulaIsInline text =
      match text.data with
      | [] => true
      | c :: _ => decide (c ≠ '\\') := by
  rfl

/-- C8: entering an enumerated auto-list emits an ordered-list marker whose
    type is chosen cyclically by the nesting depth modulo four, in the order
    decimal "1", lower-alpha "a", lower-roman "i", upper-alpha "A"; an
    unordered auto-list always gets the plain unordered marker.  (The text
    before the marker is whatever forceEndParagraph wrote, and a trailing
    newline is added outside preformatted context.) -/
theorem C8_autoList_type_cycle (pos : Option NodeInPara) (d : Nat) (isPre : Bool) :
    visitPre_DocAutoList pos true d isPre =
      forceEndParagraph_out pos ++ "<ol type=\"" ++
        (if d % 4 = 0 then "1"
         else if d % 4 = 1 then "a"
         else if d % 4 = 2 then "i"
         else "A") ++ "\">" ++
        (if isPre then "" else "\n") ∧
    visitPre_DocAutoList pos false d isPre =
      forceEndParagraph_out pos ++ "<ul>" ++ (if isPre then "" else "\n") := by
  have h : d % 4 = 0 ∨ d % 4 = 1 ∨ d % 4 = 2 ∨ d % 4 = 3 := by omega
  constructor
  · rcases h with h | h | h | h <;>
      cases isPre <;>
        simp [visitPre_DocAutoList, typesTable, NUM_HTML_LIST_TYPES, h, String.append_assoc]
  · cases isPre <;> simp [visitPre_DocAutoList, String.append_assoc]

/-- C9: a paragraph that is a direct child of the root is stripped of its
    paragraph markers exactly when the root's single-line flag is set; with
    the flag unset it gets both markers, subject only to the leading /
    trailing must-be-outside-paragraph suppression (the first-and-last
    context suppression never fires for a root parent, whose context is the
    default (0, false, false)). -/
theorem C9_root_singleLine_para (ind sl : Bool) (rkids : List DocNode) (idx : Nat)
    (ggp : Option Kind) (children : List DocNode) :
    visitPre_DocPara ⟨some (.root ind sl rkids), idx, ggp⟩ children =
      (if sl then "" else if leadingMustBeOutside children then "" else "<p>") ∧
    visitPost_DocPara ⟨some (.root ind sl rkids), idx, ggp⟩ children =
      (if sl then "" else if trailingMustBeOutside children then "" else "</p>\n") := by
  constructor
  · cases sl <;> cases hl : leadingMustBeOutside children <;>
      simp [visitPre_DocPara, paraParentNeedsTag, getParagraphContext, DocNode.kind,
        DocNode.singleLine, hl, contexts]
  · cases sl <;> cases hl : trailingMustBeOutside children <;>
      simp [visitPost_DocPara, paraParentNeedsTag, getParagraphContext, DocNode.kind,
        DocNode.singleLine, hl]

/-- C6: a parameter-list row rendered under a parameter section emits the
    direction cell exactly when the section's hasInOutSpecifier flag is set
    and the type cell exactly when the section's hasTypeSpecifier flag is
    set - the gates read only the section flags, never the row; a row whose
    own direction is Unspecified still gets an (empty) direction cell; the
    direction and type cells are never the empty string, each starting with
    its distinguishing td tag. -/
theorem C6_paramList_cells (cb : Collab) (ptype : ParamSectType) (hio hts : Bool)
    (skids : List DocNode) (dir : Direction) (tys ps : List DocNode) :
    visitPre_DocParamList cb (.paramSect ptype hio hts skids) dir tys ps =
      "    <tr>" ++ (if hio then dirCellOut dir else "") ++
        (if hts then typeCellOut cb tys else "") ++ nameCellOut cb ps ∧
    dirCellOut Direction.Unspecified = "<td class=\"paramdir\"></td>" ∧
    (∀ d : Direction, ∃ rest : String, dirCellOut d = "<td class=\"paramdir\">" ++ rest) ∧
    (∀ l : List DocNode, ∃ rest : String,
        typeCellOut cb l = "<td class=\"paramtype\">" ++ rest) := by
  refine ⟨?_, rfl, ?_, ?_⟩
  · simp [visitPre_DocParamList, DocNode.kind, DocNode.hasInOutSpecifier,
      DocNode.hasTypeSpecifier]
  · intro d
    exact ⟨(if d ≠ Direction.Unspecified then
        "[" ++
        (if d = Direction.In then "in"
         else if d = Direction.Out then "out"
         else if d = Direction.InOut then "in,out"
         else "") ++ "]"
      else "") ++ "</td>", by simp [dirCellOut, String.append_assoc]⟩
  · intro l
    exact ⟨sepJoin cb "&#160;|&#160;" l ++ "</td>", by simp [typeCellOut, String.append_assoc]⟩

/-- Shared helper: whenever getParagraphContext reports the paragraph as
    both first and last, all four emitters are silent: the two DocPara
    visitors suppress their markers and forceEndParagraph /
    forceStartParagraph return before writing for every child index. -/
theorem emits_suppressed_of_first_last (env : ParaEnv) (children : List DocNode)
    (h1 : (getParagraphContext env).2.1 = true)
    (h2 : (getParagraphContext env).2.2 = true) :
    visitPre_DocPara env children = "" ∧
    visitPost_DocPara env children = "" ∧
    (∀ i : Nat, forceEndParagraph_emits env children i = false) ∧
    (∀ i : Nat, forceStartParagraph_emits env children i = false) := by
  refine ⟨?_, ?_, ?_, ?_⟩
  · simp [visitPre_DocPara, h1, h2]
  · simp [visitPost_DocPara, h1, h2]
  · intro i
    unfold forceEndParagraph_emits
    split
    · rfl
    · split
      · split
        · rfl
        · simp [h1, h2]
      · simp [h1, h2]
  · intro i
    unfold forceStartParagraph_emits
    split
    · simp
    · split <;> simp [h1, h2]

/-- C4: for a paragraph whose structural-ancestor context reports it as
    both the first and the last child, no paragraph marker is emitted:
    visitPre and visitPost of the paragraph write neither an open nor a
    close tag, and forceEndParagraph / forceStartParagraph write nothing
    for any child of that paragraph. -/
theorem C4_first_and_last_no_markers (env : ParaEnv) (children : List DocNode)
    (h1 : (getParagraphContext env).2.1 = true)
    (h2 : (getParagraphContext env).2.2 = true) :
    visitPre_DocPara env children = "" ∧
    visitPost_DocPara env children = "" ∧
    (∀ i : Nat, forceEndParagraph_emits env children i = false) ∧
    (∀ i : Nat, forceStartParagraph_emits env children i = false) :=
  emits_suppressed_of_first_last env children h1 h2

/-- C4 witness: a paragraph inside a DocSimpleListItem (whose context is
    always (1, true, true)) with a word and a horizontal rule as children
    emits no marker anywhere. -/
theorem C4_first_and_last_witness :
    (getParagraphContext ⟨some (.simpleListItem (.para [])), 0, none⟩).2.1 = true ∧
    (getParagraphContext ⟨some (.simpleListItem (.para [])), 0, none⟩).2.2 = true ∧
    visitPre_DocPara ⟨some (.simpleListItem (.para [])), 0, none⟩
      [DocNode.word "x", DocNode.horRuler] = "" ∧
    visitPost_DocPara ⟨some (.simpleListItem (.para [])), 0, none⟩
      [DocNode.word "x", DocNode.horRuler] = "" ∧
    forceEndParagraph_emits ⟨some (.simpleListItem (.para [])), 0, none⟩
      [DocNode.word "x", DocNode.horRuler] 1 = false ∧
    forceStartParagraph_emits ⟨some (.simpleListItem (.para [])), 0, none⟩
      [DocNode.word "x", DocNode.horRuler] 1 = false := by
  have h := C4_first_and_last_no_markers ⟨some (.simpleListItem (.para [])), 0, none⟩
    [DocNode.word "x", DocNode.horRuler] rfl rfl
  exact ⟨rfl, rfl, h.1, h.2.1, h.2.2.1 1, h.2.2.2 1⟩

/-- C10: a paragraph child of a simple section that is enclosed by
    simple-section separators (first with a separator right after it, last
    with a separator right before it, or intermediate with separators on
    both sides) is reported by the context computation as both first and
    last, and consequently gets no paragraph open or close marker. -/
theorem C10_separated_paragraph_no_markers (stype : SimpleSectType)
    (skids : List DocNode) (idx : Nat) (ggp : Option Kind) (children : List DocNode)
    (h : (idx = 0 ∧ sepAt skids 1 = true) ∨
         (0 < idx ∧ idx + 1 = skids.length ∧ sepAt skids (idx - 1) = true) ∨
         (0 < idx ∧ idx + 1 < skids.length ∧ sepAt skids (idx - 1) = true ∧
           sepAt skids (idx + 1) = true)) :
    (getParagraphContext ⟨some (.simpleSect stype skids), idx, ggp⟩).2.1 = true ∧
    (getParagraphContext ⟨some (.simpleSect stype skids), idx, ggp⟩).2.2 = true ∧
    visitPre_DocPara ⟨some (.simpleSect stype skids), idx, ggp⟩ children = "" ∧
    visitPost_DocPara ⟨some (.simpleSect stype skids), idx, ggp⟩ children = "" := by
  have hlen1 : ∀ j : Nat, sepAt skids j = true → j < skids.length := by
    intro j hj
    unfold sepAt at hj
    rcases hg : skids.get? j with _ | n
    · rw [hg] at hj
      exact absurd hj (by simp)
    · exact (List.get?_eq_some.mp hg).1
  have hsep : isSeparatedParagraph skids idx = true := by
    unfold isSeparatedParagraph
    rcases h with ⟨h0, hs⟩ | ⟨h0, hlen, hs⟩ | ⟨h0, hlt, hs1, hs2⟩
    · have : 1 < skids.length := hlen1 1 hs
      subst h0
      rw [if_pos ⟨this, rfl⟩]
      exact hs
    · have hc : 1 < skids.length := by omega
      rw [if_neg (by omega), if_pos ⟨hc, by omega⟩]
      exact hs
    · have hc : 2 < skids.length := by omega
      rw [if_neg (by omega), if_neg (by omega), if_pos ⟨hc, h0, by omega⟩]
      simp [hs1, hs2]
  have hctx1 : (getParagraphContext ⟨some (.simpleSect stype skids), idx, ggp⟩).2.1 = true := by
    simp [getParagraphContext, DocNode.kind, DocNode.children, hsep]
  have hctx2 : (getParagraphContext ⟨some (.simpleSect stype skids), idx, ggp⟩).2.2 = true := by
    simp [getParagraphContext, DocNode.kind, DocNode.children, hsep]
  have hmain := emits_suppressed_of_first_last ⟨some (.simpleSect stype skids), idx, ggp⟩
    children hctx1 hctx2
  exact ⟨hctx1, hctx2, hmain.1, hmain.2.1⟩

/-- C10 witness: the first paragraph of a @note-style simple section whose
    second child is the merge separator. -/
theorem C10_separated_paragraph_witness :
    visitPre_DocPara
      ⟨some (.simpleSect SimpleSectType.Note [.para [], .simpleSectSep, .para []]), 0, none⟩
      [DocNode.word "A"] = "" ∧
    visitPost_DocPara
      ⟨some (.simpleSect SimpleSectType.Note [.para [], .simpleSectSep, .para []]), 0, none⟩
      [DocNode.word "A"] = "" := by
  have h := C10_separated_paragraph_no_markers SimpleSectType.Note
    [.para [], .simpleSectSep, .para []] 0 none [DocNode.word "A"]
    (Or.inl ⟨rfl, rfl⟩)
  exact ⟨h.2.2.1, h.2.2.2⟩

/-- C3: the code evaluated at the failing input.  The backward scan that
    forceEndParagraph hands to insideStyleChange_OutsidePara still contains
    the enabled (never disabled) Center style change, and the per-style
    scan of the spec finds it open; but the implementation masks styles
    with bitwise or/and over the RAW enum values, so the italic disable
    (value 1) poisons the mask for Center (value 3, since 1 AND 3 is not 0),
    insideStyleChange_OutsidePara returns false, and forceEndParagraph
    emits the paragraph close marker that the claim (and the function's own
    doc comment) say must not be emitted; symmetrically forceStartParagraph
    emits the reopen marker for the rule of c3kidsStart although the center
    span is still open there as well. -/
theorem C3_styleMask_bug_eval :
    stillOpenStyleScan []
      [DocNode.styleChange Style.Italic false 1,
       DocNode.word "b",
       DocNode.styleChange Style.Center true 0,
       DocNode.word "a"] = true ∧
    insideStyleChange_OutsidePara
      [DocNode.styleChange Style.Italic false 1,
       DocNode.word "b",
       DocNode.styleChange Style.Center true 0,
       DocNode.word "a"] = false ∧
    forceEndParagraph_emits ⟨none, 0, none⟩ c3kids 5 = true ∧
    stillOpenStyleScan [] ((c3kidsStart.take 5).reverse) = true ∧
    forceStartParagraph_emits ⟨none, 0, none⟩ c3kidsStart 4 = true := by
  refine ⟨by decide, by decide, by decide, by decide, by decide⟩

/-- C5: the traversal protocol of DocNode::accept.  Every leaf node's
    accept dispatches the visitor's visit entry point exactly once, with
    that node; every composite node's accept dispatches visitPre on the
    node, then the accept of each child in child-list insertion order
    (acceptList is exactly the concatenation of the children's traces in
    list order, never reordered), then visitPost on the node.  (DocCopy is
    the spec's third node shape, neither leaf nor composite; its accept
    body is empty.) -/
theorem C5_accept_protocol :
    (∀ n : DocNode, isLeafNode n = true → accept n = [VisitEvent.visit n]) ∧
    (∀ n : DocNode, isCompositeNode n = true →
      accept n = VisitEvent.visitPre n :: acceptList (acceptChildren n) ++
        [VisitEvent.visitPost n]) ∧
    (∀ l : List DocNode, acceptList l = (l.map accept).flatten) := by
  refine ⟨?_, ?_, ?_⟩
  · intro n h
    cases n <;> simp_all [isLeafNode, accept]
  · intro n h
    cases n <;> simp_all [isCompositeNode, isLeafNode, accept, acceptChildren,
      DocNode.children, acceptList]
  · intro l
    induction l with
    | nil => simp [acceptList]
    | cons x xs ih => simp [acceptList, ih]

/-- C5 witness: the protocol applied to a concrete leaf (a word) and a
    concrete composite (a paragraph with one word child). -/
theorem C5_accept_protocol_witness :
    accept (DocNode.word "a") = [VisitEvent.visit (DocNode.word "a")] ∧
    accept (DocNode.para [DocNode.word "a"]) =
      VisitEvent.visitPre (DocNode.para [DocNode.word "a"]) ::
        acceptList (acceptChildren (DocNode.para [DocNode.word "a"])) ++
        [VisitEvent.visitPost (DocNode.para [DocNode.word "a"])] :=
  ⟨C5_accept_protocol.1 (DocNode.word "a") rfl,
   C5_accept_protocol.2.1 (DocNode.para [DocNode.word "a"]) rfl⟩

theorem dropWhile_append_all {α : Type} (p : α → Bool) (l1 l2 : List α)
    (h : ∀ x ∈ l1, p x = true) :
    (l1 ++ l2).dropWhile p = l2.dropWhile p := by
  induction l1 with
  | nil => simp
  | cons x xs ih =>
    simp only [List.cons_append, List.dropWhile_cons]
    rw [h x (List.mem_cons_self x xs)]
    exact ih (fun y hy => h y (List.mem_cons_of_mem x hy))

theorem mbo_not_whitespace (n : DocNode) (h : mustBeOutsideParagraph n = true) :
    decide (n.kind = Kind.Kind_WhiteSpace) = false := by
  cases n <;> simp_all [mustBeOutsideParagraph, DocNode.kind]

/-- The backward scan of forceEndParagraph from just below index b skips
    the whitespace-only segment and stops at the must-be-outside node
    sitting at index a. -/
theorem skipWs_take_reverse_of_run (children : List DocNode) (a b : Nat) (n : DocNode)
    (hab : a < b)
    (hget : children.get? a = some n)
    (hmbo : mustBeOutsideParagraph n = true)
    (hws : ∀ t : Nat, a < t → t < b → wsAt children t = true) :
    skipWs ((children.take b).reverse) = n :: (children.take a).reverse := by
  have hsplit : children.take b =
      (children.take a ++ [n]) ++ (children.drop (a + 1)).take (b - (a + 1)) := by
    rw [show b = (a + 1) + (b - (a + 1)) by omega, List.take_add]
    congr 1
    · have hget2 : children[a]? = some n := by
        rw [← List.get?_eq_getElem?]
        exact hget
      rw [List.take_succ, hget2]
      rfl
    · congr 1
      omega
  have hmid : ∀ x ∈ (children.drop (a + 1)).take (b - (a + 1)),
      decide (x.kind = Kind.Kind_WhiteSpace) = true := by
    intro x hx
    obtain ⟨k, hk⟩ := List.mem_iff_get?.mp hx
    have hklen : k < b - (a + 1) := by
      have := List.get?_eq_some.mp hk
      have hlen := this.1
      have : ((children.drop (a + 1)).take (b - (a + 1))).length ≤ b - (a + 1) :=
        List.length_take_le _ _
      omega
    have hk2 : children.get? (a + 1 + k) = some x := by
      rw [List.get?_take hklen] at hk
      rw [List.get?_drop] at hk
      exact hk
    have hwst := hws (a + 1 + k) (by omega) (by omega)
    unfold wsAt at hwst
    rw [hk2] at hwst
    exact hwst
  rw [hsplit, List.reverse_append]
  unfold skipWs
  rw [dropWhile_append_all _ _ _ (by intro x hx; exact hmid x (List.mem_reverse.mp hx))]
  simp only [List.reverse_append, List.reverse_cons, List.reverse_nil, List.nil_append,
    List.cons_append, List.nil_append, List.dropWhile_cons]
  rw [mbo_not_whitespace n hmbo]
  rfl

/-- forceEndParagraph writes nothing for a node at index b whose nearest
    preceding non-whitespace sibling (at index a) is must-be-outside. -/
theorem forceEnd_false_of_prev_mbo (env : ParaEnv) (children : List DocNode)
    (a b : Nat) (n : DocNode) (hab : a < b)
    (hget : children.get? a = some n)
    (hmbo : mustBeOutsideParagraph n = true)
    (hws : ∀ t : Nat, a < t → t < b → wsAt children t = true) :
    forceEndParagraph_emits env children b = false := by
  have hskip := skipWs_take_reverse_of_run children a b n hab hget hmbo hws
  unfold forceEndParagraph_emits
  split
  · rfl
  · rw [hskip]
    simp [hmbo]

/-- C2: forceEndParagraph writes nothing for the paragraph's first child
    and nothing when the nearest preceding non-whitespace sibling is itself
    must-be-outside-paragraph; consequently over a run of adjacent
    must-be-outside nodes separated only by whitespace, every node after
    the first emits nothing and the number of close markers emitted for the
    whole run is one when the first node emits and zero otherwise - never
    one per node. -/
theorem C2_forceEnd_once_per_run (env : ParaEnv) (children : List DocNode) :
    (forceEndParagraph_emits env children 0 = false) ∧
    (∀ (i : Nat) (n : DocNode) (rest : List DocNode),
        skipWs ((children.take i).reverse) = n :: rest →
        mustBeOutsideParagraph n = true →
        forceEndParagraph_emits env children i = false) ∧
    (∀ (j0 : Nat) (js : List Nat), isRun children (j0 :: js) = true →
        (∀ j ∈ js, forceEndParagraph_emits env children j = false) ∧
        (j0 :: js).countP (fun j => forceEndParagraph_emits env children j) =
          (if forceEndParagraph_emits env children j0 then 1 else 0)) := by
  refine ⟨by simp [forceEndParagraph_emits], ?_, ?_⟩
  · intro i n rest hskip hmbo
    unfold forceEndParagraph_emits
    split
    · rfl
    · rw [hskip]
      simp [hmbo]
  · intro j0 js
    induction js generalizing j0 with
    | nil =>
      intro _
      refine ⟨by simp, ?_⟩
      simp [List.countP_cons, List.countP_nil]
    | cons b rest ih =>
      intro hrun
      simp only [isRun, Bool.and_eq_true, decide_eq_true_eq] at hrun
      obtain ⟨⟨⟨hmbo0, hlt⟩, hwsB⟩, hrun2⟩ := hrun
      have hrest := ih b hrun2
      obtain ⟨n0, hget0, hn0⟩ : ∃ n0, children.get? j0 = some n0 ∧
          mustBeOutsideParagraph n0 = true := by
        unfold mboAt at hmbo0
        rcases hg : children.get? j0 with _ | n0
        · rw [hg] at hmbo0
          exact absurd hmbo0 (by simp)
        · rw [hg] at hmbo0
          exact ⟨n0, rfl, hmbo0⟩
      have hws : ∀ t : Nat, j0 < t → t < b → wsAt children t = true := by
        intro t h1t h2t
        have hmem : t ∈ List.range' (j0 + 1) (b - (j0 + 1)) := by
          rw [List.mem_range'_1]
          omega
        exact List.all_eq_true.mp hwsB t hmem
      have hembF : forceEndParagraph_emits env children b = false :=
        forceEnd_false_of_prev_mbo env children j0 b n0 hlt hget0 hn0 hws
      refine ⟨?_, ?_⟩
      · intro j hj
        rcases List.mem_cons.mp hj with hj | hj
        · rw [hj]
          exact hembF
        · exact hrest.1 j hj
      · have hcount2 : (b :: rest).countP
            (fun j => forceEndParagraph_emits env children j) = 0 := by
          rw [hrest.2, hembF]
          simp
        rw [List.countP_cons, hcount2]
        split <;> simp_all

/-- C2 witness: on the concrete run [1, 3] of c2kids the first rule is the
    only child for which forceEndParagraph writes the close marker; index 0
    and the second rule write nothing. -/
theorem C2_forceEnd_once_per_run_witness :
    forceEndParagraph_emits ⟨none, 0, none⟩ c2kids 0 = false ∧
    forceEndParagraph_emits ⟨none, 0, none⟩ c2kids 3 = false ∧
    [1, 3].countP (fun j => forceEndParagraph_emits ⟨none, 0, none⟩ c2kids j) =
      (if forceEndParagraph_emits ⟨none, 0, none⟩ c2kids 1 then 1 else 0) := by
  have h := C2_forceEnd_once_per_run ⟨none, 0, none⟩ c2kids
  have hrun := h.2.2 1 [3] (by decide)
  exact ⟨h.1, hrun.1 3 (by simp), hrun.2⟩
